import Mathlib

/-!
Verification development for the SAP hosts-file filter plugin
(`deploy/ansible/roles-sap-os/2.4-hosts-file/filter_plugins/sap_hosts_filters.py`).

The development shallowly embeds the plugin functions together with the
fragment of the CPython `ipaddress` standard-library module that the plugin
calls into (string parsing of IPv4/IPv6 addresses and networks, netmask
handling, subnet membership and overlap).  Python exceptions are modelled by
an explicit error type threaded through `Except`; the distinction between
`AddressValueError` / `NetmaskValueError` (subclasses of `ValueError`) and a
plain `ValueError` is preserved, because the plugin catches only the two
subclasses while the `ipaddress.ip_address` / `ipaddress.ip_network` factory
functions raise the plain `ValueError` on parse failure.

Exception message strings follow CPython message templates; they are carried
for completeness only and no theorem below depends on their exact text.
String values are compared and transformed through their character lists,
which matches Python string semantics (code-point sequences).
-/

/-- Python exception classes raised by the `ipaddress` module.
`addressValueError` and `netmaskValueError` are the two `ValueError`
subclasses defined by `ipaddress`; `valueError` is the plain `ValueError`. -/
inductive PyExc : Type where
  | addressValueError (msg : String)
  | netmaskValueError (msg : String)
  | valueError (msg : String)
deriving DecidableEq, Repr

/-- Test for membership in the exception class `ipaddress.AddressValueError`. -/
def PyExc.isAVE : PyExc → Bool
  | .addressValueError _ => true
  | _ => false

/-- Test for membership in the exception class `ipaddress.NetmaskValueError`. -/
def PyExc.isNVE : PyExc → Bool
  | .netmaskValueError _ => true
  | _ => false

/-- Test for the exception tuple `(AddressValueError, NetmaskValueError)`. -/
def PyExc.isAVEorNVE (e : PyExc) : Bool := e.isAVE || e.isNVE

/-- The message carried by the exception (Python `str(e)`). -/
def PyExc.msg : PyExc → String
  | .addressValueError m => m
  | .netmaskValueError m => m
  | .valueError m => m

instance {ε α : Type _} [DecidableEq ε] [DecidableEq α] : DecidableEq (Except ε α) := fun a b =>
  match a, b with
  | .ok x, .ok y => if h : x = y then isTrue (by rw [h]) else isFalse (by simp [h])
  | .ok _, .error _ => isFalse (by simp)
  | .error _, .ok _ => isFalse (by simp)
  | .error x, .error y => if h : x = y then isTrue (by rw [h]) else isFalse (by simp [h])

/-- A Python `try`/`except C: handler` block: `classes` decides which
exception classes the `except` clause catches. -/
def pyCatch {α : Type _} (classes : PyExc → Bool) (body : Except PyExc α)
    (handler : Except PyExc α) : Except PyExc α :=
  match body with
  | .ok a => .ok a
  | .error e => if classes e then handler else .error e

/-- A single quote character (used for Python `repr` of strings). -/
def pySq : String := String.mk [Char.ofNat 39]

/-- Best-effort rendering of Python `repr(s)` for a string. -/
def pyRepr (s : String) : String := pySq ++ s ++ pySq

/-- Python `str.split(sep)` for a one-character separator, on char lists.
`splitOnChar c [] = [[]]`, matching Python `"".split(sep) == ['']`. -/
def splitOnChar (c : Char) : List Char → List (List Char)
  | [] => [[]]
  | x :: xs =>
    match splitOnChar c xs with
    | [] => [[]]
    | h :: t => if x = c then [] :: h :: t else (x :: h) :: t

/-- Membership of a character in a char list (Python `c in s`). -/
def charsContain (l : List Char) (c : Char) : Bool := l.contains c

/-- Python `s.isascii() and s.isdigit()` for a nonempty check included:
true iff the string is nonempty and all characters are ASCII decimal
digits. -/
def isAsciiDigits (l : List Char) : Bool := !l.isEmpty && l.all (·.isDigit)

/-- Decimal digits to a natural number (`int(s, 10)` after a digit check). -/
def digitsToNat (l : List Char) : Nat := l.foldl (fun acc c => 10 * acc + (c.toNat - 48)) 0

/-- Membership in CPython `_BaseV6._HEX_DIGITS` (`0-9A-Fa-f`). -/
def isHexDigitChar (c : Char) : Bool :=
  c.isDigit || (('a' ≤ c) && (c ≤ 'f')) || (('A' ≤ c) && (c ≤ 'F'))

/-- Value of a single hexadecimal digit. -/
def hexDigitVal (c : Char) : Nat :=
  if c.isDigit then c.toNat - 48
  else if ('a' ≤ c) && (c ≤ 'f') then c.toNat - 87
  else c.toNat - 55

/-- Hexadecimal digits to a natural number (`int(s, 16)` after a check). -/
def hexToNat (l : List Char) : Nat := l.foldl (fun acc c => 16 * acc + hexDigitVal c) 0

/-- Python `'%x' % n`: lowercase hexadecimal rendering of a natural number. -/
def toHexChars (n : Nat) : List Char := Nat.toDigits 16 n

/-- `2^bits - 1`, CPython `_ALL_ONES` for the given address width. -/
def allOnes (bits : Nat) : Nat := 2 ^ bits - 1

/-- CPython `_ip_int_from_prefix`: netmask integer from a prefix length. -/
def ip_int_from_prefixlen (prefixlen bits : Nat) : Nat :=
  allOnes bits ^^^ (allOnes bits >>> prefixlen)

/-- CPython `_parse_octet`: one dotted-quad octet.  Raises plain
`ValueError` (wrapped into `AddressValueError` by the caller). -/
def parse_octet (octet_str : List Char) : Except PyExc Nat :=
  if octet_str.isEmpty then .error (.valueError "Empty octet not permitted")
  else if !isAsciiDigits octet_str then
    .error (.valueError ("Only decimal digits permitted in " ++ pyRepr ⟨octet_str⟩))
  else if octet_str.length > 3 then
    .error (.valueError ("At most 3 characters permitted in " ++ pyRepr ⟨octet_str⟩))
  else if octet_str ≠ ['0'] && octet_str.head? = some '0' then
    .error (.valueError ("Leading zeros are not permitted in " ++ pyRepr ⟨octet_str⟩))
  else
    let octet_int := digitsToNat octet_str
    if octet_int > 255 then
      .error (.valueError ("Octet " ++ toString octet_int ++ " (> 255) not permitted"))
    else .ok octet_int

/-- CPython `IPv4Address._ip_int_from_string`: parse a dotted-quad IPv4
address into its 32-bit integer.  Raises `AddressValueError` on failure. -/
def v4_ip_int_from_chars (ip_chars : List Char) : Except PyExc Nat :=
  if ip_chars.isEmpty then .error (.addressValueError "Address cannot be empty")
  else
    match splitOnChar '.' ip_chars with
    | [o1, o2, o3, o4] =>
      (do
        let b1 ← parse_octet o1
        let b2 ← parse_octet o2
        let b3 ← parse_octet o3
        let b4 ← parse_octet o4
        pure (((b1 * 256 + b2) * 256 + b3) * 256 + b4)).mapError
        (fun e : PyExc => .addressValueError (e.msg ++ " in " ++ pyRepr ⟨ip_chars⟩))
    | _ => .error (.addressValueError ("Expected 4 octets in " ++ pyRepr ⟨ip_chars⟩))

/-- CPython `IPv4Address(address)` for a string argument: rejects `'/'`,
then parses the dotted quad. -/
def IPv4Address_ofString (address : String) : Except PyExc Nat :=
  if charsContain address.data '/' then
    .error (.addressValueError ("Unexpected " ++ pyRepr "/" ++ " in " ++ pyRepr address))
  else v4_ip_int_from_chars address.data

/-- CPython `_prefix_from_prefix_string` (shared by v4 and v6): numeric
prefix-length string, bounded by the maximum prefix length.  Raises
`NetmaskValueError`. -/
def prefix_from_prefix_string (prefixlen_str : List Char) (maxPrefixlen : Nat) :
    Except PyExc Nat :=
  if !isAsciiDigits prefixlen_str then
    .error (.netmaskValueError (pyRepr ⟨prefixlen_str⟩ ++ " is not a valid netmask"))
  else
    let prefixlen := digitsToNat prefixlen_str
    if prefixlen ≤ maxPrefixlen then .ok prefixlen
    else .error (.netmaskValueError (pyRepr ⟨prefixlen_str⟩ ++ " is not a valid netmask"))

/-- Count of trailing zero bits, with explicit recursion fuel. -/
def trailingZeroBits : Nat → Nat → Nat
  | 0, _ => 0
  | fuel + 1, n => if n % 2 = 0 then 1 + trailingZeroBits fuel (n / 2) else 0

/-- CPython `_count_righthand_zero_bits`. -/
def count_righthand_zero_bits (number bits : Nat) : Nat :=
  if number = 0 then bits else min bits (trailingZeroBits bits number)

/-- CPython `_prefix_from_ip_int`: prefix length of a netmask integer.
Raises plain `ValueError` if the bits intermingle zeroes and ones. -/
def prefix_from_ip_int (ip_int bits : Nat) : Except PyExc Nat :=
  let trailing_zeroes := count_righthand_zero_bits ip_int bits
  let prefixlen := bits - trailing_zeroes
  let leading_ones := ip_int >>> trailing_zeroes
  let all_ones := (1 <<< prefixlen) - 1
  if leading_ones ≠ all_ones then
    .error (.valueError "Netmask pattern mixes zeroes and ones")
  else .ok prefixlen

/-- CPython `_BaseV4._prefix_from_ip_string`: dotted-quad netmask or
hostmask.  Raises `NetmaskValueError`. -/
def v4_prefix_from_ip_string (ip_str : List Char) : Except PyExc Nat :=
  match v4_ip_int_from_chars ip_str with
  | .error _ => .error (.netmaskValueError (pyRepr ⟨ip_str⟩ ++ " is not a valid netmask"))
  | .ok ip_int =>
    match prefix_from_ip_int ip_int 32 with
    | .ok p => .ok p
    | .error _ =>
      match prefix_from_ip_int (ip_int ^^^ allOnes 32) 32 with
      | .ok p => .ok p
      | .error _ => .error (.netmaskValueError (pyRepr ⟨ip_str⟩ ++ " is not a valid netmask"))

/-- CPython `_BaseV4._make_netmask` for the plugin call sites: `none` is the
integer `32` default from `_split_addr_prefix`; a string argument tries the
numeric form first and falls back to the dotted-quad form.  Returns the
`(netmask_int, prefixlen)` pair. -/
def v4_make_netmask : Option (List Char) → Except PyExc (Nat × Nat)
  | none => .ok (allOnes 32, 32)
  | some arg =>
    match prefix_from_prefix_string arg 32 with
    | .ok p => .ok (ip_int_from_prefixlen p 32, p)
    | .error _ =>
      match v4_prefix_from_ip_string arg with
      | .ok p => .ok (ip_int_from_prefixlen p 32, p)
      | .error e => .error e

/-- CPython `_split_optional_netmask` composed with `_split_addr_prefix`
for a string argument: split at `'/'`; more than one slash raises
`AddressValueError`; a missing mask yields `none` (the maximum prefix
length). -/
def split_addr_mask (address : List Char) : Except PyExc (List Char × Option (List Char)) :=
  match splitOnChar '/' address with
  | [a] => .ok (a, none)
  | [a, m] => .ok (a, some m)
  | _ => .error (.addressValueError ("Only one " ++ pyRepr "/" ++ " permitted in " ++ pyRepr ⟨address⟩))

/-- Dotted-quad rendering of a 32-bit integer (CPython `_string_from_ip_int`). -/
def v4_int_to_dotted (n : Nat) : String :=
  toString (n / 16777216 % 256) ++ "." ++ toString (n / 65536 % 256) ++ "." ++
    toString (n / 256 % 256) ++ "." ++ toString (n % 256)

/-- An `ipaddress` network object: the version tag, the (masked) network
address, the netmask integer and the prefix length. -/
structure IPNetworkRec : Type where
  version : Nat
  network_address : Nat
  netmask : Nat
  prefixlen : Nat
deriving DecidableEq, Repr

/-- An `ipaddress` address object: the version tag and the address integer. -/
structure PyIPAddress : Type where
  version : Nat
  ip : Nat
deriving DecidableEq, Repr

/-- CPython `IPv4Network(address, strict)` for a string argument. -/
def IPv4Network_ofString (address : String) (strict : Bool) : Except PyExc IPNetworkRec := do
  let (addr, mask) ← split_addr_mask address.data
  let network_int ← v4_ip_int_from_chars addr
  let nm ← v4_make_netmask mask
  if network_int &&& nm.1 ≠ network_int then
    if strict then
      .error (.valueError (v4_int_to_dotted network_int ++ "/" ++ toString nm.2 ++ " has host bits set"))
    else .ok ⟨4, network_int &&& nm.1, nm.1, nm.2⟩
  else .ok ⟨4, network_int, nm.1, nm.2⟩

/-- CPython `_parse_hextet`: one 16-bit group of an IPv6 address.  Raises
plain `ValueError` (wrapped into `AddressValueError` by the caller). -/
def parse_hextet (hextet_str : List Char) : Except PyExc Nat :=
  if !hextet_str.all isHexDigitChar then
    .error (.valueError ("Only hex digits permitted in " ++ pyRepr ⟨hextet_str⟩))
  else if hextet_str.length > 4 then
    .error (.valueError ("At most 4 characters permitted in " ++ pyRepr ⟨hextet_str⟩))
  else if hextet_str.isEmpty then
    .error (.valueError ("invalid literal for int() with base 16: " ++ pyRepr ⟨hextet_str⟩))
  else .ok (hexToNat hextet_str)

/-- Fold a run of hextets into the accumulated integer
(`ip_int <<= 16; ip_int |= hextet`). -/
def parse_hextets_fold (parts : List (List Char)) (init : Nat) : Except PyExc Nat :=
  parts.foldlM (fun acc p => do
    let h ← parse_hextet p
    pure (acc * 65536 + h)) init

/-- CPython `IPv6Address._ip_int_from_string`: parse an IPv6 address string
into its 128-bit integer.  Raises `AddressValueError` on failure. -/
def v6_ip_int_from_chars (ip_chars : List Char) : Except PyExc Nat :=
  if ip_chars.isEmpty then .error (.addressValueError "Address cannot be empty")
  else
    let parts0 := splitOnChar ':' ip_chars
    if parts0.length < 3 then
      .error (.addressValueError ("At least 3 parts expected in " ++ pyRepr ⟨ip_chars⟩))
    else do
      let parts ←
        if charsContain (parts0.getLastD []) '.' then
          match v4_ip_int_from_chars (parts0.getLastD []) with
          | .error e => .error (.addressValueError (e.msg ++ " in " ++ pyRepr ⟨ip_chars⟩))
          | .ok v4 =>
            pure (parts0.dropLast ++ [toHexChars ((v4 >>> 16) &&& 65535), toHexChars (v4 &&& 65535)])
        else pure parts0
      if parts.length > 9 then
        .error (.addressValueError ("At most 8 colons permitted in " ++ pyRepr ⟨ip_chars⟩))
      else
        let emptiesIdx := (List.range parts.length).filter
          (fun i => decide (1 ≤ i) && decide (i + 1 < parts.length) && (parts.getD i [' ']).isEmpty)
        match emptiesIdx with
        | [] =>
          if parts.length ≠ 8 then
            .error (.addressValueError ("Exactly 8 parts expected without " ++ pyRepr "::" ++ " in " ++ pyRepr ⟨ip_chars⟩))
          else if (parts.getD 0 [' ']).isEmpty then
            .error (.addressValueError ("Leading " ++ pyRepr ":" ++ " only permitted as part of " ++ pyRepr "::" ++ " in " ++ pyRepr ⟨ip_chars⟩))
          else if (parts.getLastD [' ']).isEmpty then
            .error (.addressValueError ("Trailing " ++ pyRepr ":" ++ " only permitted as part of " ++ pyRepr "::" ++ " in " ++ pyRepr ⟨ip_chars⟩))
          else
            (parse_hextets_fold parts 0).mapError
              (fun e : PyExc => .addressValueError (e.msg ++ " in " ++ pyRepr ⟨ip_chars⟩))
        | [skip_index] =>
          let parts_hi0 := skip_index
          let parts_lo0 := parts.length - skip_index - 1
          let headEmpty := (parts.getD 0 [' ']).isEmpty
          let lastEmpty := (parts.getLastD [' ']).isEmpty
          let parts_hi := if headEmpty then parts_hi0 - 1 else parts_hi0
          let parts_lo := if lastEmpty then parts_lo0 - 1 else parts_lo0
          if headEmpty && parts_hi ≠ 0 then
            .error (.addressValueError ("Leading " ++ pyRepr ":" ++ " only permitted as part of " ++ pyRepr "::" ++ " in " ++ pyRepr ⟨ip_chars⟩))
          else if lastEmpty && parts_lo ≠ 0 then
            .error (.addressValueError ("Trailing " ++ pyRepr ":" ++ " only permitted as part of " ++ pyRepr "::" ++ " in " ++ pyRepr ⟨ip_chars⟩))
          else if 8 < parts_hi + parts_lo + 1 then
            .error (.addressValueError ("Expected at most 7 other parts with " ++ pyRepr "::" ++ " in " ++ pyRepr ⟨ip_chars⟩))
          else
            let parts_skipped := 8 - (parts_hi + parts_lo)
            (do
              let hi_val ← parse_hextets_fold (parts.take parts_hi) 0
              parse_hextets_fold (parts.drop (parts.length - parts_lo))
                (hi_val * 65536 ^ parts_skipped)).mapError
              (fun e : PyExc => .addressValueError (e.msg ++ " in " ++ pyRepr ⟨ip_chars⟩))
        | _ =>
          .error (.addressValueError ("At most one " ++ pyRepr "::" ++ " permitted in " ++ pyRepr ⟨ip_chars⟩))

/-- CPython `_split_scope_id`: strip a `%zone` suffix, validating it. -/
def split_scope_id (ip_chars : List Char) : Except PyExc (List Char) :=
  match splitOnChar '%' ip_chars with
  | [addr] => .ok addr
  | [addr, scope] =>
    if scope.isEmpty then
      .error (.addressValueError ("Invalid IPv6 address: " ++ pyRepr ⟨ip_chars⟩))
    else .ok addr
  | _ => .error (.addressValueError ("Invalid IPv6 address: " ++ pyRepr ⟨ip_chars⟩))

/-- CPython `IPv6Address(address)` for a string argument. -/
def IPv6Address_ofString (address : String) : Except PyExc Nat :=
  if charsContain address.data '/' then
    .error (.addressValueError ("Unexpected " ++ pyRepr "/" ++ " in " ++ pyRepr address))
  else do
    let addr ← split_scope_id address.data
    v6_ip_int_from_chars addr

/-- CPython `_BaseV6._make_netmask`: only the numeric prefix form exists
for IPv6 (`none` is the integer `128` default). -/
def v6_make_netmask : Option (List Char) → Except PyExc (Nat × Nat)
  | none => .ok (allOnes 128, 128)
  | some arg => do
    let p ← prefix_from_prefix_string arg 128
    pure (ip_int_from_prefixlen p 128, p)

/-- Plain uncompressed hex rendering of a 128-bit integer, used only inside
a best-effort exception message. -/
def v6_int_to_str (n : Nat) : String :=
  String.mk (toHexChars n)

/-- CPython `IPv6Network(address, strict)` for a string argument. -/
def IPv6Network_ofString (address : String) (strict : Bool) : Except PyExc IPNetworkRec := do
  let (addr, mask) ← split_addr_mask address.data
  let addr2 ← split_scope_id addr
  let network_int ← v6_ip_int_from_chars addr2
  let nm ← v6_make_netmask mask
  if network_int &&& nm.1 ≠ network_int then
    if strict then
      .error (.valueError (v6_int_to_str network_int ++ "/" ++ toString nm.2 ++ " has host bits set"))
    else .ok ⟨6, network_int &&& nm.1, nm.1, nm.2⟩
  else .ok ⟨6, network_int, nm.1, nm.2⟩

/-- CPython factory `ipaddress.ip_address(address)`: try IPv4, then IPv6,
catching only `(AddressValueError, NetmaskValueError)`; on double failure
raise a plain `ValueError`. -/
def ip_address_py (address : String) : Except PyExc PyIPAddress :=
  match IPv4Address_ofString address with
  | .ok n => .ok ⟨4, n⟩
  | .error e =>
    if e.isAVEorNVE then
      match IPv6Address_ofString address with
      | .ok n => .ok ⟨6, n⟩
      | .error e2 =>
        if e2.isAVEorNVE then
          .error (.valueError (pyRepr address ++ " does not appear to be an IPv4 or IPv6 address"))
        else .error e2
    else .error e

/-- CPython factory `ipaddress.ip_network(address, strict)`: try IPv4, then
IPv6, catching only `(AddressValueError, NetmaskValueError)`; on double
failure raise a plain `ValueError`. -/
def ip_network_py (address : String) (strict : Bool) : Except PyExc IPNetworkRec :=
  match IPv4Network_ofString address strict with
  | .ok n => .ok n
  | .error e =>
    if e.isAVEorNVE then
      match IPv6Network_ofString address strict with
      | .ok n => .ok n
      | .error e2 =>
        if e2.isAVEorNVE then
          .error (.valueError (pyRepr address ++ " does not appear to be an IPv4 or IPv6 network"))
        else .error e2
    else .error e

/-- CPython `_BaseNetwork.__contains__` applied to an address:
always false across versions, else a netmask check. -/
def network_contains (net : IPNetworkRec) (a : PyIPAddress) : Bool :=
  if a.version ≠ net.version then false
  else (a.ip &&& net.netmask) = net.network_address

/-- The width in bits of the address family of a network object. -/
def netBits (net : IPNetworkRec) : Nat := if net.version = 4 then 32 else 128

/-- CPython `broadcast_address` as an integer. -/
def broadcast_int (net : IPNetworkRec) : Nat :=
  net.network_address ||| (net.netmask ^^^ allOnes (netBits net))

/-- CPython `_BaseNetwork.overlaps`. -/
def network_overlaps (n1 n2 : IPNetworkRec) : Bool :=
  network_contains n2 ⟨n1.version, n1.network_address⟩ ||
  network_contains n2 ⟨n1.version, broadcast_int n1⟩ ||
  network_contains n1 ⟨n2.version, n2.network_address⟩ ||
  network_contains n1 ⟨n2.version, broadcast_int n2⟩

/-- Python truthiness of a string (`if s:`): nonempty. -/
def pyTruthyStr (s : String) : Bool := !s.data.isEmpty

/-- Python truthiness of a `str`-or-`None` value. -/
def pyTruthyOpt : Option String → Bool
  | none => false
  | some s => pyTruthyStr s

/-- Python `a or b` for `str`-or-`None` values: the first operand if it is
truthy, else the second. -/
def pyOrOptStr (a b : Option String) : Option String := if pyTruthyOpt a then a else b

/-- Python `str(b)` for a boolean. -/
def pyBoolStr (b : Bool) : String := if b then "True" else "False"

/-- Python `str.strip()` on a char list. -/
def pyStripChars (l : List Char) : List Char :=
  ((l.dropWhile Char.isWhitespace).reverse.dropWhile Char.isWhitespace).reverse

/-- Python `str.upper()` (ASCII case mapping, which covers SAP SIDs). -/
def pyUpper (s : String) : String := ⟨s.data.map Char.toUpper⟩

/-- Python `str.lower()` (ASCII case mapping). -/
def pyLower (s : String) : String := ⟨s.data.map Char.toLower⟩

/-- Python `f"{s:<w}"` on a string: left-justify to width `w` with spaces. -/
def ljust (s : String) (w : Nat) : String := s ++ String.mk (List.replicate (w - s.length) ' ')

/-- Python `<` on strings over char lists: lexicographic by code point. -/
def pyCharsLt : List Char → List Char → Bool
  | [], [] => false
  | [], _ :: _ => true
  | _ :: _, [] => false
  | a :: as, b :: bs => if a < b then true else if b < a then false else pyCharsLt as bs

/-- Python `<` on strings. -/
def pyStrLt (a b : String) : Bool := pyCharsLt a.data b.data

/-- Python `<=` on strings (total order: `a <= b` iff `not (b < a)`). -/
def pyStrLe (a b : String) : Bool := !pyStrLt b a

/-- The Python string order as a relation. -/
def pyLeRel : String → String → Prop := fun a b => pyStrLe a b = true

instance : DecidableRel pyLeRel := fun a b => instDecidableEqBool (pyStrLe a b) true

/-- Python `sorted` on a list of strings: the `pyStrLe`-sorted permutation
(Python sort is stable, so on plain strings the value is exactly the sorted
permutation). -/
def pySorted (l : List String) : List String :=
  List.insertionSort pyLeRel l

/-- The per-host variables the plugin reads out of `hostvars[hostname]`.
`none` models a missing dictionary key. -/
structure HostVars : Type where
  ipadd : Option (List String) := none
  supported_tiers : Option (List String) := none
  custom_pas_virtual_hostname : Option String := none
  custom_app_virtual_hostname : Option String := none
  custom_web_virtual_hostname : Option String := none
deriving DecidableEq, Repr

/-- The Ansible variable record consumed by `generate_sap_hosts_entries`.
Every field the plugin reads with `ansible_vars.get(...)` is present as an
optional value (`none` models a missing key); `hostvars` is the per-host
variable dictionary, modelled as a lookup function. -/
structure AnsibleVars : Type where
  ansible_play_hosts : Option (List String) := none
  hostvars : String → Option HostVars := fun _ => none
  inventory_hostname : Option String := none
  sap_sid : Option String := none
  sap_fqdn : Option String := none
  db_sid : Option String := none
  database_scale_out : Option Bool := none
  database_high_availability : Option Bool := none
  db_high_availability : Option Bool := none
  db_instance_number : Option String := none
  database_loadbalancer_ip : Option String := none
  db_lb_ip : Option String := none
  scs_high_availability : Option Bool := none
  scs_instance_number : Option String := none
  ers_instance_number : Option String := none
  scs_lb_ip : Option String := none
  ers_lb_ip : Option String := none
  custom_scs_virtual_hostname : Option String := none
  custom_ers_virtual_hostname : Option String := none
  custom_db_virtual_hostname : Option String := none
  custom_pas_virtual_hostname : Option String := none
  custom_app_virtual_hostname : Option String := none
  custom_web_virtual_hostname : Option String := none
  subnet_cidr_db : Option String := none
  subnet_cidr_storage : Option String := none
  subnet_cidr_client : Option String := none

/-- The normalized SAP configuration dictionary built by
`_extract_sap_configuration`. -/
structure SAPConfig : Type where
  sap_sid : String
  sap_fqdn : String
  db_sid : String
  database_scale_out : Bool
  database_high_availability : Bool
  db_instance_number : String
  db_lb_ip : Option String
  scs_high_availability : Bool
  scs_instance_number : String
  ers_instance_number : String
  scs_lb_ip : Option String
  ers_lb_ip : Option String
  custom_scs_virtual_hostname : Option String
  custom_ers_virtual_hostname : Option String
  custom_db_virtual_hostname : Option String
  custom_pas_virtual_hostname : Option String
  custom_app_virtual_hostname : Option String
  custom_web_virtual_hostname : Option String
deriving DecidableEq, Repr

/-- The network configuration dictionary built by
`_extract_network_configuration`: each subnet CIDR is kept only when truthy
with nonempty strip, else `None`. -/
structure NetworkConfig : Type where
  subnet_cidr_db : Option String
  subnet_cidr_storage : Option String
  subnet_cidr_client : Option String
deriving DecidableEq, Repr

/-- `_extract_sap_configuration` from `sap_hosts_filters.py`. -/
def extract_sap_configuration (ansible_vars : AnsibleVars) : SAPConfig where
  sap_sid := pyUpper (ansible_vars.sap_sid.getD "")
  sap_fqdn := ansible_vars.sap_fqdn.getD ""
  db_sid := pyUpper (ansible_vars.db_sid.getD "")
  database_scale_out := ansible_vars.database_scale_out.getD false
  database_high_availability :=
    ansible_vars.database_high_availability.getD (ansible_vars.db_high_availability.getD false)
  db_instance_number := ansible_vars.db_instance_number.getD "00"
  db_lb_ip :=
    match ansible_vars.database_loadbalancer_ip with
    | some x => some x
    | none => ansible_vars.db_lb_ip
  scs_high_availability := ansible_vars.scs_high_availability.getD false
  scs_instance_number := ansible_vars.scs_instance_number.getD "00"
  ers_instance_number := ansible_vars.ers_instance_number.getD "01"
  scs_lb_ip := ansible_vars.scs_lb_ip
  ers_lb_ip := ansible_vars.ers_lb_ip
  custom_scs_virtual_hostname := ansible_vars.custom_scs_virtual_hostname
  custom_ers_virtual_hostname := ansible_vars.custom_ers_virtual_hostname
  custom_db_virtual_hostname := ansible_vars.custom_db_virtual_hostname
  custom_pas_virtual_hostname := ansible_vars.custom_pas_virtual_hostname
  custom_app_virtual_hostname := ansible_vars.custom_app_virtual_hostname
  custom_web_virtual_hostname := ansible_vars.custom_web_virtual_hostname

/-- One field of `_extract_network_configuration`: keep the raw value when
it is truthy and has a nonempty strip, else `None`. -/
def keep_nonblank_cidr (o : Option String) : Option String :=
  let s := o.getD ""
  if pyTruthyStr s && (pyStripChars s.data).length > 0 then some s else none

/-- `_extract_network_configuration` from `sap_hosts_filters.py`. -/
def extract_network_configuration (ansible_vars : AnsibleVars) : NetworkConfig where
  subnet_cidr_db := keep_nonblank_cidr ansible_vars.subnet_cidr_db
  subnet_cidr_storage := keep_nonblank_cidr ansible_vars.subnet_cidr_storage
  subnet_cidr_client := keep_nonblank_cidr ansible_vars.subnet_cidr_client

/-- `_format_hosts_entry` / the public `format_hosts_entry` filter:
three left-justified fields of widths 19, 81 and 17. -/
def format_hosts_entry (ip_address fqdn hostname : String) : String :=
  ljust ip_address 19 ++ ljust fqdn 81 ++ ljust hostname 17

/-- `_get_scs_virtual_hostname`. -/
def get_scs_virtual_hostname (config : SAPConfig) : String :=
  if pyTruthyOpt config.custom_scs_virtual_hostname then
    config.custom_scs_virtual_hostname.getD ""
  else pyLower config.sap_sid ++ "scs" ++ config.scs_instance_number ++ "cl1"

/-- `_get_ers_virtual_hostname`. -/
def get_ers_virtual_hostname (config : SAPConfig) : String :=
  if pyTruthyOpt config.custom_ers_virtual_hostname then
    config.custom_ers_virtual_hostname.getD ""
  else pyLower config.sap_sid ++ "ers" ++ config.ers_instance_number ++ "cl2"

/-- `_get_db_virtual_hostname`. -/
def get_db_virtual_hostname (config : SAPConfig) : String :=
  if pyTruthyOpt config.custom_db_virtual_hostname then
    config.custom_db_virtual_hostname.getD ""
  else pyLower config.sap_sid ++ pyLower config.db_sid ++ "db" ++ config.db_instance_number ++ "cl"

/-- `_get_database_ip_suffix`: classify a scale-out IP by subnet membership
(DB subnet before storage subnet), choosing the suffix by the database HA
flag.  The outer `try` catches only `AddressValueError`; the inner `try`
blocks catch `(AddressValueError, NetmaskValueError)`. -/
def get_database_ip_suffix (ip_address_str : String) (config : SAPConfig)
    (network_config : NetworkConfig) : Except PyExc (Option String) :=
  pyCatch PyExc.isAVE
    (do
      let ip_obj ← ip_address_py ip_address_str
      let from_db ←
        if pyTruthyOpt network_config.subnet_cidr_db then
          pyCatch PyExc.isAVEorNVE
            (do
              let db_network ← ip_network_py (network_config.subnet_cidr_db.getD "") false
              if network_contains db_network ip_obj then
                pure (some (if config.database_high_availability then "-hsr" else "-hana"))
              else pure none)
            (pure none)
        else pure none
      match from_db with
      | some s => pure (some s)
      | none =>
        if pyTruthyOpt network_config.subnet_cidr_storage then
          pyCatch PyExc.isAVEorNVE
            (do
              let storage_network ← ip_network_py (network_config.subnet_cidr_storage.getD "") false
              if network_contains storage_network ip_obj then
                pure (some (if config.database_high_availability then "-inter" else "-storage"))
              else pure none)
            (pure none)
        else pure none)
    (pure none)

/-- `_generate_database_scale_out_entries`: one suffixed entry when the
suffix classification is truthy, else nothing. -/
def generate_database_scale_out_entries (hostname ip_address_str : String)
    (config : SAPConfig) (network_config : NetworkConfig) : Except PyExc (List String) := do
  let suffix ← get_database_ip_suffix ip_address_str config network_config
  if pyTruthyOpt suffix then
    let hostname_with_suffix := hostname ++ suffix.getD ""
    pure [format_hosts_entry ip_address_str (hostname_with_suffix ++ "." ++ config.sap_fqdn)
      hostname_with_suffix]
  else pure []

/-- The scanning loop inside `_get_client_subnet_ip_or_primary`: first IP of
the list that parses and lies in the client network; a per-IP `except
AddressValueError: continue` guards each iteration. -/
def client_subnet_scan (client_network : IPNetworkRec) :
    List String → Except PyExc (Option String)
  | [] => .ok none
  | ip_addr :: rest =>
    match ip_address_py ip_addr with
    | .ok a =>
      if network_contains client_network a then .ok (some ip_addr)
      else client_subnet_scan client_network rest
    | .error e => if e.isAVE then client_subnet_scan client_network rest else .error e

/-- `_get_client_subnet_ip_or_primary`. -/
def get_client_subnet_ip_or_primary (ip_addresses : List String)
    (network_config : NetworkConfig) (primary_ip : String) : Except PyExc String :=
  if !pyTruthyOpt network_config.subnet_cidr_client then .ok primary_ip
  else do
    let found ← pyCatch PyExc.isAVEorNVE
      (do
        let client_network ← ip_network_py (network_config.subnet_cidr_client.getD "") false
        client_subnet_scan client_network ip_addresses)
      (.ok none)
    pure (found.getD primary_ip)

/-- `_is_ip_in_client_subnet`. -/
def is_ip_in_client_subnet (ip_address_str : String) (network_config : NetworkConfig) :
    Except PyExc Bool :=
  if !pyTruthyOpt network_config.subnet_cidr_client then .ok false
  else
    pyCatch PyExc.isAVEorNVE
      (do
        let client_network ← ip_network_py (network_config.subnet_cidr_client.getD "") false
        let a ← ip_address_py ip_address_str
        pure (network_contains client_network a))
      (.ok false)

/-- One iteration of the tier loop in
`_generate_custom_virtual_hostname_entries`: the tier dispatch table plus
the `config.get(key) or host_vars.get(key)` chain and the truthiness
check. -/
def custom_tier_entry (host_vars : HostVars) (config : SAPConfig)
    (primary_ip : String) (tier : String) : List String :=
  let custom_hostname :=
    if tier = "pas" then
      pyOrOptStr config.custom_pas_virtual_hostname host_vars.custom_pas_virtual_hostname
    else if tier = "app" then
      pyOrOptStr config.custom_app_virtual_hostname host_vars.custom_app_virtual_hostname
    else if tier = "web" then
      pyOrOptStr config.custom_web_virtual_hostname host_vars.custom_web_virtual_hostname
    else none
  if pyTruthyOpt custom_hostname then
    [format_hosts_entry primary_ip (custom_hostname.getD "" ++ "." ++ config.sap_fqdn)
      (custom_hostname.getD "")]
  else []

/-- `_generate_custom_virtual_hostname_entries`. -/
def generate_custom_virtual_hostname_entries (host_vars : HostVars) (config : SAPConfig)
    (primary_ip : String) (supported_tiers : List String) : List String :=
  supported_tiers.flatMap (custom_tier_entry host_vars config primary_ip)

/-- The unfiltered secondary-IP loop of `_generate_single_host_entries`. -/
def plain_scale_out_loop (hostname : String) (config : SAPConfig)
    (network_config : NetworkConfig) : List String → Except PyExc (List String)
  | [] => .ok []
  | secondary_ip :: rest => do
    let es ← generate_database_scale_out_entries hostname secondary_ip config network_config
    let tail ← plain_scale_out_loop hostname config network_config rest
    pure (es ++ tail)

/-- The filtered secondary-IP loop of `_generate_single_host_entries`
(client-subnet membership gate before each scale-out entry). -/
def filtered_scale_out_loop (hostname : String) (config : SAPConfig)
    (network_config : NetworkConfig) : List String → Except PyExc (List String)
  | [] => .ok []
  | secondary_ip :: rest => do
    let inClient ← is_ip_in_client_subnet secondary_ip network_config
    if inClient then do
      let es ← generate_database_scale_out_entries hostname secondary_ip config network_config
      let tail ← filtered_scale_out_loop hostname config network_config rest
      pure (es ++ tail)
    else filtered_scale_out_loop hostname config network_config rest

/-- `_generate_single_host_entries`. -/
def generate_single_host_entries (hostname : String) (host_vars : HostVars)
    (config : SAPConfig) (network_config : NetworkConfig)
    (is_current_host_db_vm : Bool) : Except PyExc (List String) :=
  match host_vars.ipadd.getD [] with
  | [] => .ok []
  | primary_ip :: secondary_ips =>
    let supported_tiers := host_vars.supported_tiers.getD []
    let is_target_host_db_vm := supported_tiers.contains "hana"
    let apply_filtering :=
      !is_current_host_db_vm && is_target_host_db_vm && config.database_scale_out
    if apply_filtering then do
      let filtered_primary_ip ←
        get_client_subnet_ip_or_primary (primary_ip :: secondary_ips) network_config primary_ip
      let base :=
        if pyTruthyStr filtered_primary_ip then
          [format_hosts_entry filtered_primary_ip (hostname ++ "." ++ config.sap_fqdn) hostname]
        else []
      let customs :=
        generate_custom_virtual_hostname_entries host_vars config filtered_primary_ip supported_tiers
      let so ← filtered_scale_out_loop hostname config network_config secondary_ips
      pure (base ++ customs ++ so)
    else do
      let base := [format_hosts_entry primary_ip (hostname ++ "." ++ config.sap_fqdn) hostname]
      let customs :=
        generate_custom_virtual_hostname_entries host_vars config primary_ip supported_tiers
      let so ←
        if config.database_scale_out && is_target_host_db_vm then
          plain_scale_out_loop hostname config network_config secondary_ips
        else pure []
      pure (base ++ customs ++ so)

/-- One iteration of the host loop in `_generate_physical_host_entries`:
hosts missing from `hostvars` are skipped. -/
def physical_host_entry_block (hostvars : String → Option HostVars) (config : SAPConfig)
    (network_config : NetworkConfig) (is_current_host_db_vm : Bool)
    (hostname : String) : Except PyExc (List String) :=
  match hostvars hostname with
  | none => .ok []
  | some host_vars =>
    generate_single_host_entries hostname host_vars config network_config is_current_host_db_vm

/-- The host loop of `_generate_physical_host_entries`, concatenating the
per-host contributions in list order. -/
def physical_hosts_loop (hostvars : String → Option HostVars) (config : SAPConfig)
    (network_config : NetworkConfig) (is_current_host_db_vm : Bool) :
    List String → Except PyExc (List String)
  | [] => .ok []
  | h :: rest => do
    let es ← physical_host_entry_block hostvars config network_config is_current_host_db_vm h
    let tail ← physical_hosts_loop hostvars config network_config is_current_host_db_vm rest
    pure (es ++ tail)

/-- `_generate_physical_host_entries`: iterate `sorted(ansible_play_hosts)`. -/
def generate_physical_host_entries (ansible_vars : AnsibleVars) (config : SAPConfig)
    (network_config : NetworkConfig) (is_current_host_db_vm : Bool) :
    Except PyExc (List String) :=
  physical_hosts_loop ansible_vars.hostvars config network_config is_current_host_db_vm
    (pySorted (ansible_vars.ansible_play_hosts.getD []))

/-- The repeated current-host lookup: `"hana" in
hostvars.get(inventory_hostname, {}).get("supported_tiers", [])`. -/
def current_host_is_db_vm (ansible_vars : AnsibleVars) : Bool :=
  let current_hostname := ansible_vars.inventory_hostname.getD ""
  let current_host_vars := (ansible_vars.hostvars current_hostname).getD {}
  (current_host_vars.supported_tiers.getD []).contains "hana"

/-- The extra header line emitted when network isolation is active. -/
def isolation_filtered_line : String :=
  "# Network isolation: Active (Non-DB host view - showing client subnet IPs only)"

/-- The extra header line emitted for a database-VM view under scale-out. -/
def isolation_full_line : String :=
  "# Network isolation: Disabled (DB host view - showing all IPs)"

/-- `_generate_main_section_header`. -/
def generate_main_section_header (config : SAPConfig) (ansible_vars : AnsibleVars) :
    List String :=
  let ansible_play_hosts := ansible_vars.ansible_play_hosts.getD []
  let network_config := extract_network_configuration ansible_vars
  let is_current_host_db_vm := current_host_is_db_vm ansible_vars
  let network_isolation_active :=
    config.database_scale_out && !is_current_host_db_vm &&
      network_config.subnet_cidr_client.isSome
  ["# BEGIN ANSIBLE MANAGED BLOCK - " ++ config.sap_sid,
   "# SID: " ++ config.sap_sid,
   "# " ++ toString ansible_play_hosts.length ++ " Hosts",
   "# Scale out: " ++ pyBoolStr config.database_scale_out,
   "# High availability: " ++ pyBoolStr config.database_high_availability,
   "# Subnet DB valid: " ++ pyBoolStr network_config.subnet_cidr_db.isSome,
   "# Subnet Storage valid: " ++ pyBoolStr network_config.subnet_cidr_storage.isSome,
   "# Subnet Client valid: " ++ pyBoolStr network_config.subnet_cidr_client.isSome]
  ++ (if network_isolation_active then [isolation_filtered_line]
      else if config.database_scale_out && is_current_host_db_vm then [isolation_full_line]
      else [])

/-- `_generate_main_section_footer`. -/
def generate_main_section_footer (config : SAPConfig) : List String :=
  ["# END ANSIBLE MANAGED BLOCK - " ++ config.sap_sid]

/-- `_generate_scs_ers_section`. -/
def generate_scs_ers_section (config : SAPConfig) : List String :=
  if !config.scs_high_availability then []
  else
    let scs_virtual_hostname := get_scs_virtual_hostname config
    let ers_virtual_hostname := get_ers_virtual_hostname config
    ["# BEGIN ASCS/ERS Entries " ++ scs_virtual_hostname]
    ++ (if pyTruthyOpt config.scs_lb_ip then
          [format_hosts_entry (config.scs_lb_ip.getD "")
            (scs_virtual_hostname ++ "." ++ config.sap_fqdn) scs_virtual_hostname]
        else [])
    ++ (if pyTruthyOpt config.ers_lb_ip then
          [format_hosts_entry (config.ers_lb_ip.getD "")
            (ers_virtual_hostname ++ "." ++ config.sap_fqdn) ers_virtual_hostname]
        else [])
    ++ ["# END ASCS/ERS Entries " ++ scs_virtual_hostname]

/-- `_generate_database_section`. -/
def generate_database_section (config : SAPConfig) : List String :=
  if !config.database_high_availability || !pyTruthyOpt config.db_lb_ip then []
  else
    let db_virtual_hostname := get_db_virtual_hostname config
    ["# BEGIN DB Entries " ++ db_virtual_hostname,
     format_hosts_entry (config.db_lb_ip.getD "")
       (db_virtual_hostname ++ "." ++ config.sap_fqdn) db_virtual_hostname,
     "# END DB Entries " ++ db_virtual_hostname]

/-- `_generate_virtual_hostname_sections` (its `ansible_vars` parameter is
unused in the source and omitted here). -/
def generate_virtual_hostname_sections (config : SAPConfig) : List String :=
  let scs_ers_section := generate_scs_ers_section config
  let db_section := generate_database_section config
  (if !scs_ers_section.isEmpty then "" :: scs_ers_section else [])
  ++ (if !db_section.isEmpty then "" :: db_section else [])

/-- `generate_sap_hosts_entries`: the main public filter function. -/
def generate_sap_hosts_entries (ansible_vars : AnsibleVars) : Except PyExc (List String) := do
  let config := extract_sap_configuration ansible_vars
  let network_config := extract_network_configuration ansible_vars
  let is_current_host_db_vm := current_host_is_db_vm ansible_vars
  let header := generate_main_section_header config ansible_vars
  let physical_entries ←
    generate_physical_host_entries ansible_vars config network_config is_current_host_db_vm
  pure (header ++ [""] ++ physical_entries ++ generate_main_section_footer config
    ++ generate_virtual_hostname_sections config)

/-- The dictionary passed to the public `validate_network_config` filter. -/
structure ValidationInput : Type where
  subnet_cidr_db : Option String := none
  subnet_cidr_storage : Option String := none
  subnet_cidr_client : Option String := none
deriving DecidableEq, Repr

/-- The result dictionary of `validate_network_config`. -/
structure ValidationResults : Type where
  valid : Bool
  warnings : List String
  errors : List String
deriving DecidableEq, Repr

/-- `network_config.get(subnet_key)` for the three keys the filter queries. -/
def validation_get (network_config : ValidationInput) (key : String) : Option String :=
  if key = "subnet_cidr_db" then network_config.subnet_cidr_db
  else if key = "subnet_cidr_storage" then network_config.subnet_cidr_storage
  else if key = "subnet_cidr_client" then network_config.subnet_cidr_client
  else none

/-- One iteration of the CIDR-format loop of `validate_network_config`:
`ipaddress.ip_network(subnet_value, strict=False)`, with an `except` clause
catching only `(AddressValueError, NetmaskValueError)`. -/
def validate_cidr_step (network_config : ValidationInput) (results : ValidationResults)
    (subnet_key : String) : Except PyExc ValidationResults :=
  let subnet_value := validation_get network_config subnet_key
  if pyTruthyOpt subnet_value then
    match ip_network_py (subnet_value.getD "") false with
    | .ok _ => .ok results
    | .error e =>
      if e.isAVEorNVE then
        .ok { results with
          errors := results.errors ++
            ["Invalid " ++ subnet_key ++ ": " ++ subnet_value.getD "" ++ " - " ++ e.msg],
          valid := false }
      else .error e
  else .ok results

/-- One iteration of the overlap loop of `validate_network_config`
(`strict=False` parses, overlap recorded as a warning). -/
def validate_overlap_step (network_config : ValidationInput) (results : ValidationResults)
    (pair : String × String) : Except PyExc ValidationResults :=
  let subnet1 := validation_get network_config pair.1
  let subnet2 := validation_get network_config pair.2
  if pyTruthyOpt subnet1 && pyTruthyOpt subnet2 then
    match (do
      let net1 ← ip_network_py (subnet1.getD "") false
      let net2 ← ip_network_py (subnet2.getD "") false
      pure (network_overlaps net1 net2) : Except PyExc Bool) with
    | .ok true =>
      .ok { results with warnings := results.warnings ++
        ["Subnets overlap: " ++ pair.1 ++ "=" ++ subnet1.getD "" ++ " and " ++
          pair.2 ++ "=" ++ subnet2.getD ""] }
    | .ok false => .ok results
    | .error e => if e.isAVEorNVE then .ok results else .error e
  else .ok results

/-- `validate_network_config`: the public validation filter. -/
def validate_network_config (network_config : ValidationInput) :
    Except PyExc ValidationResults := do
  let results : ValidationResults := ⟨true, [], []⟩
  let results ←
    ["subnet_cidr_db", "subnet_cidr_storage", "subnet_cidr_client"].foldlM
      (validate_cidr_step network_config) results
  [("subnet_cidr_db", "subnet_cidr_storage"), ("subnet_cidr_db", "subnet_cidr_client"),
    ("subnet_cidr_storage", "subnet_cidr_client")].foldlM
    (validate_overlap_step network_config) results

/-! ### Specification-side notions used to state the claims -/

/-- Claim-side membership: the parsed address lies in the optional CIDR
(absent or non-truthy CIDR never matches; an unparseable CIDR never
matches). -/
def ipMem (a : PyIPAddress) (o : Option String) : Bool :=
  pyTruthyOpt o &&
    (match ip_network_py (o.getD "") false with
     | .ok n => network_contains n a
     | .error _ => false)

/-- Claim-side membership for a textual IP: an unparseable IP never
matches. -/
def ipMemStr (ip : String) (o : Option String) : Bool :=
  match ip_address_py ip with
  | .ok a => ipMem a o
  | .error _ => false

/-- Well-formedness of an optional CIDR field: when truthy it parses as a
network (plugin call sites use `strict=False`). -/
def cidrParses (o : Option String) : Prop :=
  pyTruthyOpt o = true → (ip_network_py (o.getD "") false).isOk = true

instance (o : Option String) : Decidable (cidrParses o) := by
  unfold cidrParses
  exact inferInstance

/-- The scale-out suffix dictated by the claims: DB subnet before storage
subnet, suffix chosen by the database HA flag. -/
def claimSuffix (a : PyIPAddress) (config : SAPConfig) (net : NetworkConfig) :
    Option String :=
  if ipMem a net.subnet_cidr_db then
    some (if config.database_high_availability then "-hsr" else "-hana")
  else if ipMem a net.subnet_cidr_storage then
    some (if config.database_high_availability then "-inter" else "-storage")
  else none

/-- Claim-side suffixed entries for one secondary IP: one entry when the
classification yields a suffix, none otherwise. -/
def suffixedEntries (hostname ip : String) (config : SAPConfig) (net : NetworkConfig) :
    List String :=
  match ip_address_py ip with
  | .error _ => []
  | .ok a =>
    match claimSuffix a config net with
    | some sfx =>
      [format_hosts_entry ip (hostname ++ sfx ++ "." ++ config.sap_fqdn) (hostname ++ sfx)]
    | none => []

/-- The strict Python string order. -/
def pyLtRel : String → String → Prop := fun a b => pyStrLt a b = true

/-- The validation input of claim C1: `subnet_cidr_db` holds the invalid
CIDR string `10.0.0.0/99`. -/
def c1_input : ValidationInput := { subnet_cidr_db := some "10.0.0.0/99" }

/-- The generator input of claim C2: one scale-out hana host whose IP list
contains the malformed address string `not-an-ip`. -/
def c2_input : AnsibleVars := {
  ansible_play_hosts := some ["hdb1"]
  hostvars := fun h =>
    if h = "hdb1" then
      some { ipadd := some ["10.0.1.4", "not-an-ip"], supported_tiers := some ["hana"] }
    else none
  inventory_hostname := some "hdb1"
  sap_sid := some "HDB"
  sap_fqdn := some "contoso.com"
  database_scale_out := some true
  subnet_cidr_db := some "10.0.0.0/24" }

/-- Concrete configuration for the C3 witness: scale-out with database HA
enabled. -/
def c3_config : SAPConfig := extract_sap_configuration
  { sap_sid := some "HDB", sap_fqdn := some "contoso.com",
    database_scale_out := some true, database_high_availability := some true }

/-- Concrete network configuration for the C3 witness. -/
def c3_net : NetworkConfig := extract_network_configuration
  { subnet_cidr_db := some "10.0.0.0/24", subnet_cidr_storage := some "10.0.2.0/24" }

/-- Concrete host for the C4 witness: first IP in the DB subnet, second IP
in the client subnet. -/
def c4_host : HostVars :=
  { ipadd := some ["10.0.1.4", "10.0.3.7"], supported_tiers := some ["hana"] }

/-- Concrete configuration for the C4 witness: scale-out enabled. -/
def c4_config : SAPConfig := extract_sap_configuration
  { sap_sid := some "HDB", sap_fqdn := some "contoso.com", database_scale_out := some true }

/-- Concrete network configuration for the C4 witness. -/
def c4_net : NetworkConfig := extract_network_configuration
  { subnet_cidr_db := some "10.0.1.0/24", subnet_cidr_client := some "10.0.3.0/24" }

/-- Concrete host for the C7 witness: a hana host with a secondary IP inside
the configured DB subnet. -/
def c7_host : HostVars :=
  { ipadd := some ["10.0.1.4", "10.0.0.7"], supported_tiers := some ["hana"] }

/-- Concrete configuration for the C7 witness: scale-out disabled. -/
def c7_config : SAPConfig := extract_sap_configuration
  { sap_sid := some "HDB", sap_fqdn := some "contoso.com" }

/-- Concrete network configuration for the C7 witness: all subnets set. -/
def c7_net : NetworkConfig := extract_network_configuration
  { subnet_cidr_db := some "10.0.0.0/24", subnet_cidr_storage := some "10.0.2.0/24",
    subnet_cidr_client := some "10.0.3.0/24" }

/-- Concrete host map for the C8 witness: `present` has an empty IP list and
`absent` is missing entirely. -/
def c8_hostvars : String → Option HostVars := fun h =>
  if h = "present" then some { ipadd := some [] } else none

/-- Concrete configuration for the C8 witness (all defaults). -/
def c8_config : SAPConfig := extract_sap_configuration {}

/-- Concrete network configuration for the C8 witness (all defaults). -/
def c8_net : NetworkConfig := extract_network_configuration {}

/-- The eight always-present header lines, as a claim-side definition. -/
def header_base_lines (config : SAPConfig) (ansible_vars : AnsibleVars) : List String :=
  ["# BEGIN ANSIBLE MANAGED BLOCK - " ++ config.sap_sid,
   "# SID: " ++ config.sap_sid,
   "# " ++ toString (ansible_vars.ansible_play_hosts.getD []).length ++ " Hosts",
   "# Scale out: " ++ pyBoolStr config.database_scale_out,
   "# High availability: " ++ pyBoolStr config.database_high_availability,
   "# Subnet DB valid: " ++
     pyBoolStr (extract_network_configuration ansible_vars).subnet_cidr_db.isSome,
   "# Subnet Storage valid: " ++
     pyBoolStr (extract_network_configuration ansible_vars).subnet_cidr_storage.isSome,
   "# Subnet Client valid: " ++
     pyBoolStr (extract_network_configuration ansible_vars).subnet_cidr_client.isSome]

/-- The input of the C9 counterexample: scale-out enabled, the viewing host
`app1` is not hana-tagged, and no client subnet CIDR is configured. -/
def c9_vars : AnsibleVars := {
  ansible_play_hosts := some ["app1", "hdb1"]
  hostvars := fun h =>
    if h = "app1" then some { ipadd := some ["10.0.4.5"], supported_tiers := some ["app"] }
    else if h = "hdb1" then some { ipadd := some ["10.0.1.4"], supported_tiers := some ["hana"] }
    else none
  inventory_hostname := some "app1"
  sap_sid := some "HDB"
  sap_fqdn := some "contoso.com"
  database_scale_out := some true
  subnet_cidr_db := some "10.0.0.0/24" }

/-- The configuration extracted from the C9 counterexample input. -/
def c9_config : SAPConfig := extract_sap_configuration c9_vars

/-- Concrete variables for the C6 witness (play hosts deliberately given
out of lexicographic order). -/
def c6_vars : AnsibleVars := {
  ansible_play_hosts := some ["hdb2", "hdb1"]
  hostvars := fun h =>
    if h = "hdb1" then some { ipadd := some ["10.0.1.4"] }
    else if h = "hdb2" then some { ipadd := some ["10.0.1.5"] }
    else none
  sap_sid := some "HDB"
  sap_fqdn := some "contoso.com" }

/-- The `valid`-iff-`errors`-empty invariant. -/
def resultsInv (r : ValidationResults) : Prop := r.valid = true ↔ r.errors = []

/-- Concrete input for the C10 witness: two valid, overlapping subnets. -/
def c10_input : ValidationInput :=
  { subnet_cidr_db := some "10.0.0.0/24", subnet_cidr_storage := some "10.0.0.0/25" }

/-- The result of validating `c10_input`: valid, one overlap warning, no
errors. -/
def c10_result : ValidationResults :=
  ⟨true, ["Subnets overlap: subnet_cidr_db=10.0.0.0/24 and subnet_cidr_storage=10.0.0.0/25"], []⟩

/-! ### Order facts for the Python string comparison -/

theorem pyCharsLt_irrefl (l : List Char) : pyCharsLt l l = false := by
  induction l with
  | nil => rfl
  | cons a as ih => simp [pyCharsLt, ih]

theorem pyCharsLt_asymm : ∀ {a b : List Char}, pyCharsLt a b = true → pyCharsLt b a = false
  | [], [], h => by simp [pyCharsLt] at h
  | [], _ :: _, _ => by simp [pyCharsLt]
  | _ :: _, [], h => by simp [pyCharsLt] at h
  | a :: as, b :: bs, h => by
    by_cases hab : a < b
    · simp [pyCharsLt, hab, asymm hab, lt_asymm hab]
    · by_cases hba : b < a
      · simp [pyCharsLt, hab, hba] at h
      · simp only [pyCharsLt, if_neg hab, if_neg hba] at h
        simp [pyCharsLt, hab, hba, pyCharsLt_asymm h]

theorem pyCharsLt_trans : ∀ {a b c : List Char},
    pyCharsLt a b = true → pyCharsLt b c = true → pyCharsLt a c = true
  | [], _, _ :: _, _, _ => by simp [pyCharsLt]
  | [], b, [], _, h2 => by
    cases b <;> simp [pyCharsLt] at h2
  | _ :: _, b, [], h1, h2 => by
    cases b <;> simp [pyCharsLt] at h1 h2
  | a :: as, b :: bs, c :: cs, h1, h2 => by
    by_cases hab : a < b <;> by_cases hbc : b < c
    · have hac : a < c := lt_trans hab hbc
      simp [pyCharsLt, hac]
    · simp only [pyCharsLt, if_pos hab] at h1
      by_cases hcb : c < b
      · simp [pyCharsLt, hbc, hcb] at h2
      · have hbc2 : b = c := le_antisymm (not_lt.mp hcb) (not_lt.mp hbc)
        subst hbc2
        simp [pyCharsLt, hab]
    · simp only [pyCharsLt, if_neg hab] at h1
      by_cases hba : b < a
      · simp [hba] at h1
      · have hab2 : a = b := le_antisymm (not_lt.mp hba) (not_lt.mp hab)
        subst hab2
        simp [pyCharsLt, hbc]
    · simp only [pyCharsLt, if_neg hab] at h1
      simp only [pyCharsLt, if_neg hbc] at h2
      by_cases hba : b < a
      · simp [hba] at h1
      · by_cases hcb : c < b
        · simp [hcb] at h2
        · have hab2 : a = b := le_antisymm (not_lt.mp hba) (not_lt.mp hab)
          have hbc2 : b = c := le_antisymm (not_lt.mp hcb) (not_lt.mp hbc)
          subst hab2; subst hbc2
          simp only [if_neg hba] at h1 h2
          simp [pyCharsLt, hba, pyCharsLt_trans h1 h2]

theorem pyCharsLt_connex : ∀ {a b : List Char},
    pyCharsLt a b = false → pyCharsLt b a = false → a = b
  | [], [], _, _ => rfl
  | [], _ :: _, h1, _ => by simp [pyCharsLt] at h1
  | _ :: _, [], _, h2 => by simp [pyCharsLt] at h2
  | a :: as, b :: bs, h1, h2 => by
    by_cases hab : a < b
    · simp [pyCharsLt, hab] at h1
    · by_cases hba : b < a
      · simp [pyCharsLt, hba, hab] at h2
      · have hab2 : a = b := le_antisymm (not_lt.mp hba) (not_lt.mp hab)
        subst hab2
        simp only [pyCharsLt, if_neg hab] at h1 h2
        rw [pyCharsLt_connex h1 h2]

theorem pyLeRel_total : ∀ a b : String, pyLeRel a b ∨ pyLeRel b a := by
  intro a b
  by_cases h : pyCharsLt b.data a.data = true
  · right
    simp [pyLeRel, pyStrLe, pyStrLt, pyCharsLt_asymm h]
  · left
    simp only [pyLeRel, pyStrLe, pyStrLt]
    simp [Bool.not_eq_true] at h
    simp [h]

theorem pyLeRel_trans : ∀ a b c : String, pyLeRel a b → pyLeRel b c → pyLeRel a c := by
  intro a b c hab hbc
  simp only [pyLeRel, pyStrLe, pyStrLt, Bool.not_eq_true'] at hab hbc ⊢
  by_contra h
  simp only [Bool.not_eq_false] at h
  by_cases hx : pyCharsLt b.data c.data = true
  · have hd : pyCharsLt b.data a.data = true := pyCharsLt_trans hx h
    rw [hd] at hab; cases hab
  · simp only [Bool.not_eq_true] at hx
    have hbceq : b.data = c.data := pyCharsLt_connex hx hbc
    rw [← hbceq] at h
    rw [h] at hab; cases hab

theorem pyLeRel_antisymm : ∀ a b : String, pyLeRel a b → pyLeRel b a → a = b := by
  intro a b hab hba
  simp only [pyLeRel, pyStrLe, pyStrLt, Bool.not_eq_true'] at hab hba
  have hd := pyCharsLt_connex hba hab
  cases a; cases b
  simp_all

theorem pySorted_sorted (l : List String) : (pySorted l).Sorted pyLeRel :=
  @List.sorted_insertionSort String pyLeRel inferInstance ⟨pyLeRel_total⟩ ⟨pyLeRel_trans⟩ l

theorem pySorted_perm (l : List String) : (pySorted l).Perm l :=
  List.perm_insertionSort pyLeRel l

/-- Sorting a permuted list yields the same sorted list. -/
theorem pySorted_congr_perm {l₁ l₂ : List String} (h : l₁.Perm l₂) :
    pySorted l₁ = pySorted l₂ :=
  @List.eq_of_perm_of_sorted String pyLeRel ⟨pyLeRel_antisymm⟩ _ _
    ((pySorted_perm l₁).trans (h.trans (pySorted_perm l₂).symm))
    (pySorted_sorted l₁) (pySorted_sorted l₂)

/-- On a duplicate-free list the sorted order is strict. -/
theorem pySorted_sorted_strict {l : List String} (h : l.Nodup) :
    (pySorted l).Sorted pyLtRel := by
  have hnd : (pySorted l).Nodup := ((pySorted_perm l).nodup_iff).mpr h
  have hs := pySorted_sorted l
  refine List.Pairwise.imp₂ (fun a b hle hne => ?_) hs hnd
  simp only [pyLeRel, pyStrLe, Bool.not_eq_true'] at hle
  simp only [pyLtRel]
  by_cases hx : pyStrLt a b = true
  · exact hx
  · simp only [Bool.not_eq_true, pyStrLt] at hx
    have hd : a.data = b.data := pyCharsLt_connex hx hle
    cases a; cases b; simp_all

/-! ### Equivalence lemmas between the embedded loops and claim-side forms -/

@[simp] theorem except_bind_ok {ε α β : Type _} (a : α) (f : α → Except ε β) :
    (Except.ok a : Except ε α) >>= f = f a := rfl

@[simp] theorem except_bind_error {ε α β : Type _} (e : ε) (f : α → Except ε β) :
    (Except.error e : Except ε α) >>= f = Except.error e := rfl

@[simp] theorem except_pure_eq {ε α : Type _} (a : α) : (pure a : Except ε α) = Except.ok a := rfl

theorem isOk_exists {ε α : Type _} {x : Except ε α} (h : x.isOk = true) : ∃ a, x = .ok a := by
  cases x with
  | error e => simp [Except.isOk, Except.toBool] at h
  | ok a => exact ⟨a, rfl⟩

/-- A successfully parsed IP string is nonempty (hence truthy). -/
theorem parse_ok_truthy {s : String} {a : PyIPAddress}
    (h : ip_address_py s = .ok a) : pyTruthyStr s = true := by
  cases s with
  | mk data =>
    cases data with
    | nil =>
      have hx : (ip_address_py ⟨[]⟩).isOk = false := by decide
      rw [h] at hx
      simp [Except.isOk, Except.toBool] at hx
    | cons c cs => rfl

/-- `_get_database_ip_suffix` computes the claim-side classification when
the IP parses and the present subnet CIDRs parse. -/
theorem get_database_ip_suffix_eq (ip : String) (config : SAPConfig) (net : NetworkConfig)
    (a : PyIPAddress) (hip : ip_address_py ip = .ok a)
    (hdb : cidrParses net.subnet_cidr_db) (hst : cidrParses net.subnet_cidr_storage) :
    get_database_ip_suffix ip config net = .ok (claimSuffix a config net) := by
  unfold get_database_ip_suffix claimSuffix ipMem
  rw [hip]
  by_cases h1 : pyTruthyOpt net.subnet_cidr_db
  · obtain ⟨ndb, hndb⟩ := isOk_exists (hdb h1)
    by_cases hm : network_contains ndb a
    · simp [h1, hndb, hm, pyCatch]
    · by_cases h2 : pyTruthyOpt net.subnet_cidr_storage
      · obtain ⟨nst, hnst⟩ := isOk_exists (hst h2)
        by_cases hm2 : network_contains nst a
        · simp [h1, h2, hndb, hnst, hm, hm2, pyCatch]
        · simp [h1, h2, hndb, hnst, hm, hm2, pyCatch]
      · simp [h1, h2, hndb, hm, pyCatch]
  · by_cases h2 : pyTruthyOpt net.subnet_cidr_storage
    · obtain ⟨nst, hnst⟩ := isOk_exists (hst h2)
      by_cases hm2 : network_contains nst a
      · simp [h1, h2, hnst, hm2, pyCatch]
      · simp [h1, h2, hnst, hm2, pyCatch]
    · simp [h1, h2, pyCatch]

/-- `_generate_database_scale_out_entries` emits exactly the claim-side
suffixed entries under the same hypotheses. -/
theorem generate_database_scale_out_entries_eq (hostname ip : String) (config : SAPConfig)
    (net : NetworkConfig) (a : PyIPAddress) (hip : ip_address_py ip = .ok a)
    (hdb : cidrParses net.subnet_cidr_db) (hst : cidrParses net.subnet_cidr_storage) :
    generate_database_scale_out_entries hostname ip config net =
      .ok (suffixedEntries hostname ip config net) := by
  unfold generate_database_scale_out_entries suffixedEntries
  rw [get_database_ip_suffix_eq ip config net a hip hdb hst, hip]
  cases hc : claimSuffix a config net with
  | none => simp [hc, pyTruthyOpt]
  | some sfx =>
    have hne : pyTruthyOpt (some sfx) = true := by
      unfold claimSuffix at hc
      split at hc
      · cases hc; split <;> decide
      · split at hc
        · cases hc; split <;> decide
        · cases hc
    simp [hc, hne]

/-- `_is_ip_in_client_subnet` computes the claim-side membership when the IP
parses and the client CIDR (if present) parses. -/
theorem is_ip_in_client_subnet_eq (ip : String) (net : NetworkConfig)
    (a : PyIPAddress) (hip : ip_address_py ip = .ok a)
    (hcl : cidrParses net.subnet_cidr_client) :
    is_ip_in_client_subnet ip net = .ok (ipMemStr ip net.subnet_cidr_client) := by
  unfold is_ip_in_client_subnet ipMemStr ipMem
  rw [hip]
  by_cases h1 : pyTruthyOpt net.subnet_cidr_client
  · obtain ⟨n, hn⟩ := isOk_exists (hcl h1)
    simp [h1, hn, hip, pyCatch]
  · simp [h1, pyCatch]

/-- The scan loop of `_get_client_subnet_ip_or_primary` returns the first IP
of the list lying in the client subnet. -/
theorem client_subnet_scan_eq (n : IPNetworkRec) (o : Option String)
    (hn : ip_network_py (o.getD "") false = .ok n) (ho : pyTruthyOpt o = true) :
    ∀ ips : List String, (∀ ip ∈ ips, (ip_address_py ip).isOk = true) →
      client_subnet_scan n ips = .ok (ips.find? (fun ip => ipMemStr ip o))
  | [], _ => rfl
  | ip :: rest, hips => by
    obtain ⟨a, ha⟩ := isOk_exists (hips ip (by simp))
    unfold client_subnet_scan
    rw [ha]
    by_cases hm : network_contains n a
    · have hmm : ipMemStr ip o = true := by simp [ipMemStr, ipMem, ha, hn, ho, hm]
      simp [hm, List.find?_cons_of_pos, hmm]
    · have hmm : ipMemStr ip o = false := by simp [ipMemStr, ipMem, ha, hn, hm]
      have hrest := client_subnet_scan_eq n o hn ho rest (fun x hx => hips x (by simp [hx]))
      simp [hm, hmm, hrest, List.find?_cons]

/-- `_get_client_subnet_ip_or_primary` returns the first client-subnet IP of
the list, falling back to the primary IP. -/
theorem get_client_subnet_ip_or_primary_eq (ips : List String) (net : NetworkConfig)
    (primary : String) (hcl : cidrParses net.subnet_cidr_client)
    (hips : ∀ ip ∈ ips, (ip_address_py ip).isOk = true) :
    get_client_subnet_ip_or_primary ips net primary =
      .ok ((ips.find? (fun ip => ipMemStr ip net.subnet_cidr_client)).getD primary) := by
  unfold get_client_subnet_ip_or_primary
  by_cases h1 : pyTruthyOpt net.subnet_cidr_client
  · obtain ⟨n, hn⟩ := isOk_exists (hcl h1)
    rw [if_neg (by simp [h1])]
    simp only [hn, pyCatch, client_subnet_scan_eq n _ hn h1 ips hips, except_bind_ok,
      except_pure_eq]
  · have hnone : ips.find? (fun ip => ipMemStr ip net.subnet_cidr_client) = none := by
      apply List.find?_eq_none.mpr
      intro x _
      cases hp : ip_address_py x with
      | ok a => simp [ipMemStr, hp, ipMem, h1]
      | error e => simp [ipMemStr, hp]
    simp [h1, hnone]

/-- The filtered secondary-IP loop emits the claim-side suffixed entries of
exactly the client-subnet members. -/
theorem filtered_scale_out_loop_eq (hostname : String) (config : SAPConfig)
    (net : NetworkConfig) (hcl : cidrParses net.subnet_cidr_client)
    (hdb : cidrParses net.subnet_cidr_db) (hst : cidrParses net.subnet_cidr_storage) :
    ∀ ips : List String, (∀ ip ∈ ips, (ip_address_py ip).isOk = true) →
      filtered_scale_out_loop hostname config net ips =
        .ok ((ips.filter (fun ip => ipMemStr ip net.subnet_cidr_client)).flatMap
          (fun ip => suffixedEntries hostname ip config net))
  | [], _ => rfl
  | ip :: rest, hips => by
    obtain ⟨a, ha⟩ := isOk_exists (hips ip (by simp))
    have hrest := filtered_scale_out_loop_eq hostname config net hcl hdb hst rest
      (fun x hx => hips x (by simp [hx]))
    unfold filtered_scale_out_loop
    rw [is_ip_in_client_subnet_eq ip net a ha hcl]
    simp only [except_bind_ok]
    by_cases hm : ipMemStr ip net.subnet_cidr_client
    · rw [if_pos hm]
      rw [generate_database_scale_out_entries_eq hostname ip config net a ha hdb hst]
      simp [hm, hrest]
    · rw [if_neg (by simp [Bool.not_eq_true] at hm; simp [hm])]
      rw [hrest]
      simp [Bool.not_eq_true] at hm
      simp [hm]

/-- The unfiltered secondary-IP loop emits the claim-side suffixed entries
of every secondary IP. -/
theorem plain_scale_out_loop_eq (hostname : String) (config : SAPConfig)
    (net : NetworkConfig) (hdb : cidrParses net.subnet_cidr_db)
    (hst : cidrParses net.subnet_cidr_storage) :
    ∀ ips : List String, (∀ ip ∈ ips, (ip_address_py ip).isOk = true) →
      plain_scale_out_loop hostname config net ips =
        .ok (ips.flatMap (fun ip => suffixedEntries hostname ip config net))
  | [], _ => rfl
  | ip :: rest, hips => by
    obtain ⟨a, ha⟩ := isOk_exists (hips ip (by simp))
    have hrest := plain_scale_out_loop_eq hostname config net hdb hst rest
      (fun x hx => hips x (by simp [hx]))
    unfold plain_scale_out_loop
    rw [generate_database_scale_out_entries_eq hostname ip config net a ha hdb hst]
    simp [hrest]

/-! ### Claim theorems -/

/-- Claim C1 (code bug): `validate_network_config` is claimed never to
raise and to report the invalid CIDR `10.0.0.0/99` as `valid=false` with an
error; instead the call raises an uncaught plain `ValueError`, because the
`ipaddress.ip_network` factory wraps parse failures into plain `ValueError`,
which the `except (AddressValueError, NetmaskValueError)` clause does not
catch: the error-collecting branch is unreachable for string inputs. -/
theorem validate_network_config_raises_on_invalid_cidr :
    validate_network_config c1_input =
      .error (.valueError (pyRepr "10.0.0.0/99" ++
        " does not appear to be an IPv4 or IPv6 network")) := by
  decide

/-- Claim C2 (code bug): a malformed IP in a host's IP list is claimed to be
treated as a non-match that never aborts the generation; instead the whole
`generate_sap_hosts_entries` call raises an uncaught plain `ValueError`,
because `ipaddress.ip_address` is a factory raising plain `ValueError`,
which the `except ipaddress.AddressValueError` clause in
`_get_database_ip_suffix` does not catch. -/
theorem generate_sap_hosts_entries_raises_on_malformed_ip :
    generate_sap_hosts_entries c2_input =
      .error (.valueError (pyRepr "not-an-ip" ++
        " does not appear to be an IPv4 or IPv6 address")) := by
  decide

/-- Claim C3: for a scale-out secondary IP the emitted entry is classified
by subnet membership in fixed order (DB subnet first, then storage), with
suffix `-hsr`/`-hana` for the DB subnet and `-inter`/`-storage` for the
storage subnet according to the database HA flag, and no entry when the IP
lies in neither subnet. -/
theorem scale_out_suffix_classification (hostname ip : String) (config : SAPConfig)
    (net : NetworkConfig) (a : PyIPAddress) (hip : ip_address_py ip = .ok a)
    (hdb : cidrParses net.subnet_cidr_db) (hst : cidrParses net.subnet_cidr_storage) :
    generate_database_scale_out_entries hostname ip config net =
      .ok (if ipMem a net.subnet_cidr_db then
             [format_hosts_entry ip
               (hostname ++ (if config.database_high_availability then "-hsr" else "-hana")
                 ++ "." ++ config.sap_fqdn)
               (hostname ++ (if config.database_high_availability then "-hsr" else "-hana"))]
           else if ipMem a net.subnet_cidr_storage then
             [format_hosts_entry ip
               (hostname ++ (if config.database_high_availability then "-inter" else "-storage")
                 ++ "." ++ config.sap_fqdn)
               (hostname ++ (if config.database_high_availability then "-inter" else "-storage"))]
           else []) := by
  rw [generate_database_scale_out_entries_eq hostname ip config net a hip hdb hst]
  unfold suffixedEntries claimSuffix
  rw [hip]
  by_cases h1 : ipMem a net.subnet_cidr_db <;> by_cases h2 : ipMem a net.subnet_cidr_storage <;>
    simp [h1, h2]

theorem scale_out_suffix_classification_witness :
    ip_address_py "10.0.0.5" = .ok ⟨4, 167772165⟩ ∧
    generate_database_scale_out_entries "hdb1" "10.0.0.5" c3_config c3_net =
      .ok [format_hosts_entry "10.0.0.5" "hdb1-hsr.contoso.com" "hdb1-hsr"] := by
  refine ⟨by decide, ?_⟩
  rw [scale_out_suffix_classification "hdb1" "10.0.0.5" c3_config c3_net ⟨4, 167772165⟩
    (by decide) (by decide) (by decide)]
  decide

/-- Claim C4: network-isolation filtering applies exactly when scale-out is
enabled, the viewing host is not hana-tagged and the target host is
hana-tagged; in that case the displayed primary IP is the first IP of the
host lying in the client subnet with fallback to the first IP, and only
secondary IPs inside the client subnet can produce suffixed entries; in
every other case all IPs are shown unfiltered. -/
theorem single_host_network_isolation (hostname : String) (host_vars : HostVars)
    (config : SAPConfig) (net : NetworkConfig) (is_current_host_db_vm : Bool)
    (hips : ∀ ip ∈ host_vars.ipadd.getD [], (ip_address_py ip).isOk = true)
    (hcl : cidrParses net.subnet_cidr_client)
    (hdb : cidrParses net.subnet_cidr_db)
    (hst : cidrParses net.subnet_cidr_storage) :
    generate_single_host_entries hostname host_vars config net is_current_host_db_vm =
      .ok (match host_vars.ipadd.getD [] with
        | [] => []
        | primary_ip :: secondary_ips =>
          if !is_current_host_db_vm && (host_vars.supported_tiers.getD []).contains "hana"
              && config.database_scale_out then
            let display := (((primary_ip :: secondary_ips).find?
              (fun ip => ipMemStr ip net.subnet_cidr_client)).getD primary_ip)
            format_hosts_entry display (hostname ++ "." ++ config.sap_fqdn) hostname
              :: generate_custom_virtual_hostname_entries host_vars config display
                  (host_vars.supported_tiers.getD [])
              ++ (secondary_ips.filter (fun ip => ipMemStr ip net.subnet_cidr_client)).flatMap
                  (fun ip => suffixedEntries hostname ip config net)
          else
            format_hosts_entry primary_ip (hostname ++ "." ++ config.sap_fqdn) hostname
              :: generate_custom_virtual_hostname_entries host_vars config primary_ip
                  (host_vars.supported_tiers.getD [])
              ++ (if config.database_scale_out
                    && (host_vars.supported_tiers.getD []).contains "hana" then
                    secondary_ips.flatMap (fun ip => suffixedEntries hostname ip config net)
                  else [])) := by
  cases hipadd : host_vars.ipadd.getD [] with
  | nil => simp [generate_single_host_entries, hipadd]
  | cons primary_ip secondary_ips =>
    rw [hipadd] at hips
    have hprim : (ip_address_py primary_ip).isOk = true := hips primary_ip (by simp)
    have hsecs : ∀ ip ∈ secondary_ips, (ip_address_py ip).isOk = true :=
      fun ip hx => hips ip (by simp [hx])
    unfold generate_single_host_entries
    rw [hipadd]
    dsimp only
    by_cases happly : (!is_current_host_db_vm
        && (host_vars.supported_tiers.getD []).contains "hana"
        && config.database_scale_out) = true
    · rw [if_pos happly, if_pos happly]
      rw [get_client_subnet_ip_or_primary_eq (primary_ip :: secondary_ips) net primary_ip hcl
        (by rw [← hipadd] at hips; rw [hipadd] at hips; exact hips)]
      simp only [except_bind_ok]
      have hdisp : pyTruthyStr (((primary_ip :: secondary_ips).find?
          (fun ip => ipMemStr ip net.subnet_cidr_client)).getD primary_ip) = true := by
        cases hf : (primary_ip :: secondary_ips).find?
            (fun ip => ipMemStr ip net.subnet_cidr_client) with
        | none =>
          obtain ⟨a, ha⟩ := isOk_exists hprim
          simpa using parse_ok_truthy ha
        | some x =>
          have hxmem : x ∈ primary_ip :: secondary_ips := List.mem_of_find?_eq_some hf
          obtain ⟨a, ha⟩ := isOk_exists (hips x hxmem)
          simpa using parse_ok_truthy ha
      rw [if_pos hdisp]
      rw [filtered_scale_out_loop_eq hostname config net hcl hdb hst secondary_ips hsecs]
      simp
    · rw [if_neg happly, if_neg happly]
      by_cases hso : (config.database_scale_out
          && (host_vars.supported_tiers.getD []).contains "hana") = true
      · rw [if_pos hso, if_pos hso]
        rw [plain_scale_out_loop_eq hostname config net hdb hst secondary_ips hsecs]
        simp
      · rw [if_neg hso, if_neg hso]
        simp

theorem single_host_network_isolation_witness :
    (c4_host.ipadd.getD []).all (fun ip => (ip_address_py ip).isOk) = true ∧
    generate_single_host_entries "hdb1" c4_host c4_config c4_net false =
      .ok [format_hosts_entry "10.0.3.7" "hdb1.contoso.com" "hdb1"] := by
  refine ⟨by decide, ?_⟩
  rw [single_host_network_isolation "hdb1" c4_host c4_config c4_net false (by decide)
    (by decide) (by decide) (by decide)]
  decide

/-- Claim C5: the SCS/ERS section appears iff `scs_high_availability` is
truthy, with the SCS line iff an SCS load-balancer IP is configured and,
independently, the ERS line iff an ERS load-balancer IP is configured,
header and footer bracketing the section; the DB section appears iff
database HA is truthy and a DB load-balancer IP is present. -/
theorem virtual_hostname_sections_spec (config : SAPConfig) :
    (generate_scs_ers_section config ≠ [] ↔ config.scs_high_availability = true) ∧
    (generate_database_section config ≠ [] ↔
      config.database_high_availability = true ∧ pyTruthyOpt config.db_lb_ip = true) ∧
    generate_scs_ers_section config =
      (if config.scs_high_availability then
        ["# BEGIN ASCS/ERS Entries " ++ get_scs_virtual_hostname config]
        ++ (if pyTruthyOpt config.scs_lb_ip then
              [format_hosts_entry (config.scs_lb_ip.getD "")
                (get_scs_virtual_hostname config ++ "." ++ config.sap_fqdn)
                (get_scs_virtual_hostname config)]
            else [])
        ++ (if pyTruthyOpt config.ers_lb_ip then
              [format_hosts_entry (config.ers_lb_ip.getD "")
                (get_ers_virtual_hostname config ++ "." ++ config.sap_fqdn)
                (get_ers_virtual_hostname config)]
            else [])
        ++ ["# END ASCS/ERS Entries " ++ get_scs_virtual_hostname config]
      else []) ∧
    generate_database_section config =
      (if config.database_high_availability && pyTruthyOpt config.db_lb_ip then
        ["# BEGIN DB Entries " ++ get_db_virtual_hostname config,
         format_hosts_entry (config.db_lb_ip.getD "")
           (get_db_virtual_hostname config ++ "." ++ config.sap_fqdn)
           (get_db_virtual_hostname config),
         "# END DB Entries " ++ get_db_virtual_hostname config]
      else []) := by
  refine ⟨?_, ?_, ?_, ?_⟩
  · unfold generate_scs_ers_section
    by_cases h : config.scs_high_availability <;> simp [h]
  · unfold generate_database_section
    by_cases h1 : config.database_high_availability <;>
      by_cases h2 : pyTruthyOpt config.db_lb_ip <;> simp [h1, h2]
  · unfold generate_scs_ers_section
    by_cases h : config.scs_high_availability <;> simp [h]
  · unfold generate_database_section
    by_cases h1 : config.database_high_availability <;>
      by_cases h2 : pyTruthyOpt config.db_lb_ip <;> simp [h1, h2]

/-- Claim C7: with scale-out disabled a host contributes exactly its primary
entry and its custom virtual-hostname entries; no suffixed secondary-IP
entry is ever produced, regardless of the subnet configuration, and the
generation of the host block cannot fail. -/
theorem no_scale_out_no_suffixed_entries (hostname : String) (host_vars : HostVars)
    (config : SAPConfig) (net : NetworkConfig) (is_current_host_db_vm : Bool)
    (h : config.database_scale_out = false) :
    generate_single_host_entries hostname host_vars config net is_current_host_db_vm =
      .ok (match host_vars.ipadd.getD [] with
        | [] => []
        | primary_ip :: _ =>
          format_hosts_entry primary_ip (hostname ++ "." ++ config.sap_fqdn) hostname
            :: generate_custom_virtual_hostname_entries host_vars config primary_ip
                (host_vars.supported_tiers.getD [])) := by
  cases hipadd : host_vars.ipadd.getD [] with
  | nil => simp [generate_single_host_entries, hipadd]
  | cons primary_ip secondary_ips =>
    unfold generate_single_host_entries
    rw [hipadd]
    dsimp only
    rw [if_neg (by simp [h]), if_neg (by simp [h])]
    simp

theorem no_scale_out_no_suffixed_entries_witness :
    c7_config.database_scale_out = false ∧
    generate_single_host_entries "hdb1" c7_host c7_config c7_net false =
      .ok [format_hosts_entry "10.0.1.4" "hdb1.contoso.com" "hdb1"] := by
  refine ⟨by decide, ?_⟩
  rw [no_scale_out_no_suffixed_entries "hdb1" c7_host c7_config c7_net false (by decide)]
  decide

/-- Claim C8: a host absent from the per-host variable map, or with an empty
IP list, contributes zero lines to the physical-host block, and neither case
is an error. -/
theorem absent_or_empty_host_contributes_nothing (hostvars : String → Option HostVars)
    (config : SAPConfig) (net : NetworkConfig) (is_current_host_db_vm : Bool)
    (hostname : String) :
    (hostvars hostname = none →
      physical_host_entry_block hostvars config net is_current_host_db_vm hostname = .ok []) ∧
    (∀ host_vars, hostvars hostname = some host_vars → host_vars.ipadd.getD [] = [] →
      physical_host_entry_block hostvars config net is_current_host_db_vm hostname = .ok []) := by
  constructor
  · intro h
    simp [physical_host_entry_block, h]
  · intro host_vars h hips
    simp [physical_host_entry_block, h, generate_single_host_entries, hips]

theorem absent_or_empty_host_contributes_nothing_witness :
    c8_hostvars "absent" = none ∧
    physical_host_entry_block c8_hostvars c8_config c8_net false "absent" = .ok [] ∧
    c8_hostvars "present" = some { ipadd := some [] } ∧
    physical_host_entry_block c8_hostvars c8_config c8_net false "present" = .ok [] := by
  refine ⟨by decide, ?_, by decide, ?_⟩
  · exact (absent_or_empty_host_contributes_nothing c8_hostvars c8_config c8_net false
      "absent").1 (by decide)
  · exact (absent_or_empty_host_contributes_nothing c8_hostvars c8_config c8_net false
      "present").2 { ipadd := some [] } (by decide) (by decide)

/-- Claim C9 counterexample: scale-out is enabled and the viewing host is
not hana-tagged, yet the generated header carries no informational network
isolation line at all, because the code additionally requires a configured
client subnet CIDR before appending the line. -/
theorem header_isolation_line_missing :
    c9_config.database_scale_out = true ∧
    current_host_is_db_vm c9_vars = false ∧
    (generate_main_section_header c9_config c9_vars).length = 8 ∧
    (generate_main_section_header c9_config c9_vars).all
      (fun line => !(line == isolation_filtered_line) && !(line == isolation_full_line)) = true := by
  decide

/-- Claim C9 (amended): the header carries an extra informational line
exactly when scale-out is enabled and either the viewing host is not
hana-tagged AND a client subnet CIDR is configured (line: filtered view), or
the viewing host is hana-tagged (line: full view); with scale-out enabled, a
non-hana viewing host and no client subnet configured, no extra line is
emitted. -/
theorem header_isolation_line_exact (config : SAPConfig) (ansible_vars : AnsibleVars) :
    generate_main_section_header config ansible_vars =
      header_base_lines config ansible_vars ++
        (if config.database_scale_out && !current_host_is_db_vm ansible_vars &&
            (extract_network_configuration ansible_vars).subnet_cidr_client.isSome then
          [isolation_filtered_line]
        else if config.database_scale_out && current_host_is_db_vm ansible_vars then
          [isolation_full_line]
        else []) := rfl

/-- The full generator output depends on `ansible_play_hosts` only through
its length and its sorted order. -/
theorem generate_sap_hosts_entries_play_congr (v : AnsibleVars) (l₁ l₂ : Option (List String))
    (hlen : (l₁.getD []).length = (l₂.getD []).length)
    (hsort : pySorted (l₁.getD []) = pySorted (l₂.getD [])) :
    generate_sap_hosts_entries { v with ansible_play_hosts := l₁ } =
      generate_sap_hosts_entries { v with ansible_play_hosts := l₂ } := by
  have h1 : extract_sap_configuration { v with ansible_play_hosts := l₁ } =
      extract_sap_configuration { v with ansible_play_hosts := l₂ } := rfl
  have h2 : extract_network_configuration { v with ansible_play_hosts := l₁ } =
      extract_network_configuration { v with ansible_play_hosts := l₂ } := rfl
  have h3 : current_host_is_db_vm { v with ansible_play_hosts := l₁ } =
      current_host_is_db_vm { v with ansible_play_hosts := l₂ } := rfl
  have h4 : ({ v with ansible_play_hosts := l₁ } : AnsibleVars).hostvars =
      ({ v with ansible_play_hosts := l₂ } : AnsibleVars).hostvars := rfl
  unfold generate_sap_hosts_entries generate_main_section_header generate_physical_host_entries
  dsimp only
  rw [h1, h2, h3, h4, hlen, hsort]

/-- Claim C6: the physical-host block iterates the hosts in strictly
lexicographic hostname order (a sorted permutation of the play hosts, strict
when the hostnames are duplicate-free), and the whole generator output is
invariant under permutations of the `ansible_play_hosts` input list. -/
theorem physical_order_and_permutation_invariance (ansible_vars : AnsibleVars)
    (config : SAPConfig) (net : NetworkConfig) (is_current_host_db_vm : Bool)
    (hnd : (ansible_vars.ansible_play_hosts.getD []).Nodup) :
    (∃ hs : List String, hs.Perm (ansible_vars.ansible_play_hosts.getD []) ∧
      hs.Sorted pyLtRel ∧
      generate_physical_host_entries ansible_vars config net is_current_host_db_vm =
        physical_hosts_loop ansible_vars.hostvars config net is_current_host_db_vm hs) ∧
    (∀ l' : List String, l'.Perm (ansible_vars.ansible_play_hosts.getD []) →
      generate_sap_hosts_entries { ansible_vars with ansible_play_hosts := some l' } =
        generate_sap_hosts_entries ansible_vars) := by
  constructor
  · exact ⟨pySorted (ansible_vars.ansible_play_hosts.getD []),
      pySorted_perm _, pySorted_sorted_strict hnd, rfl⟩
  · intro l' hperm
    have hx : generate_sap_hosts_entries { ansible_vars with ansible_play_hosts := some l' } =
        generate_sap_hosts_entries
          { ansible_vars with ansible_play_hosts := ansible_vars.ansible_play_hosts } :=
      generate_sap_hosts_entries_play_congr ansible_vars (some l')
        ansible_vars.ansible_play_hosts hperm.length_eq (pySorted_congr_perm hperm)
    exact hx

theorem physical_order_and_permutation_invariance_witness :
    (["hdb2", "hdb1"] : List String).Nodup ∧
    (["hdb1", "hdb2"] : List String).Perm ["hdb2", "hdb1"] ∧
    generate_sap_hosts_entries { c6_vars with ansible_play_hosts := some ["hdb1", "hdb2"] } =
      generate_sap_hosts_entries c6_vars := by
  refine ⟨by decide, by decide, ?_⟩
  exact (physical_order_and_permutation_invariance c6_vars (extract_sap_configuration c6_vars)
    (extract_network_configuration c6_vars) false (by decide)).2 ["hdb1", "hdb2"] (by decide)

theorem except_bind_eq_ok {ε α β : Type _} {x : Except ε α} {f : α → Except ε β} {b : β}
    (h : (x >>= f) = .ok b) : ∃ a, x = .ok a ∧ f a = .ok b := by
  cases x with
  | ok a => exact ⟨a, rfl, h⟩
  | error e => simp at h

/-- One CIDR-format iteration preserves the invariant. -/
theorem validate_cidr_step_inv {network_config : ValidationInput} {r r' : ValidationResults}
    {k : String} (h : validate_cidr_step network_config r k = .ok r')
    (hinv : resultsInv r) : resultsInv r' := by
  unfold validate_cidr_step at h
  by_cases h1 : pyTruthyOpt (validation_get network_config k)
  · rw [if_pos h1] at h
    cases hp : ip_network_py ((validation_get network_config k).getD "") false with
    | ok n =>
      rw [hp] at h
      cases h
      exact hinv
    | error e =>
      rw [hp] at h
      dsimp only at h
      by_cases he : e.isAVEorNVE
      · rw [if_pos he] at h
        cases h
        unfold resultsInv
        constructor
        · intro hv; cases hv
        · intro hx
          exact absurd hx (by simp)
      · rw [if_neg he] at h
        cases h
  · rw [if_neg h1] at h
    cases h
    exact hinv

/-- One overlap iteration changes neither `valid` nor `errors`. -/
theorem validate_overlap_step_pres {network_config : ValidationInput}
    {r r' : ValidationResults} {p : String × String}
    (h : validate_overlap_step network_config r p = .ok r') :
    r'.valid = r.valid ∧ r'.errors = r.errors := by
  unfold validate_overlap_step at h
  by_cases h1 : (pyTruthyOpt (validation_get network_config p.1) &&
      pyTruthyOpt (validation_get network_config p.2)) = true
  · rw [if_pos h1] at h
    cases hp : (do
        let net1 ← ip_network_py ((validation_get network_config p.1).getD "") false
        let net2 ← ip_network_py ((validation_get network_config p.2).getD "") false
        pure (network_overlaps net1 net2) : Except PyExc Bool) with
    | ok b =>
      rw [hp] at h
      cases b with
      | true => cases h; exact ⟨rfl, rfl⟩
      | false => cases h; exact ⟨rfl, rfl⟩
    | error e =>
      rw [hp] at h
      dsimp only at h
      by_cases he : e.isAVEorNVE
      · rw [if_pos he] at h; cases h; exact ⟨rfl, rfl⟩
      · rw [if_neg he] at h; cases h
  · rw [if_neg h1] at h
    cases h
    exact ⟨rfl, rfl⟩

/-- Claim C10: whenever `validate_network_config` returns a result, the
returned `valid` flag is true exactly when the `errors` list is empty; the
overlap warnings never influence `valid`. -/
theorem validate_valid_iff_no_errors (network_config : ValidationInput)
    (r : ValidationResults) (h : validate_network_config network_config = .ok r) :
    r.valid = true ↔ r.errors = [] := by
  unfold validate_network_config at h
  simp only [List.foldlM_cons, List.foldlM_nil, except_pure_eq, except_bind_ok] at h
  obtain ⟨rc, hrc, h⟩ := except_bind_eq_ok h
  obtain ⟨r1, hr1, hrc⟩ := except_bind_eq_ok hrc
  obtain ⟨r2, hr2, hrc⟩ := except_bind_eq_ok hrc
  obtain ⟨r3, hr3, hrc⟩ := except_bind_eq_ok hrc
  injection hrc with h3eq
  subst h3eq
  obtain ⟨r4, hr4, h⟩ := except_bind_eq_ok h
  obtain ⟨r5, hr5, h⟩ := except_bind_eq_ok h
  obtain ⟨r6, hr6, h⟩ := except_bind_eq_ok h
  have hinv3 : resultsInv r3 :=
    validate_cidr_step_inv hr3 (validate_cidr_step_inv hr2 (validate_cidr_step_inv hr1
      (by unfold resultsInv; simp)))
  have h4 := validate_overlap_step_pres hr4
  have h5 := validate_overlap_step_pres hr5
  have h6 := validate_overlap_step_pres hr6
  cases h
  unfold resultsInv at hinv3
  rw [h6.1, h6.2, h5.1, h5.2, h4.1, h4.2]
  exact hinv3

theorem validate_valid_iff_no_errors_witness :
    validate_network_config c10_input = .ok c10_result ∧
    (c10_result.valid = true ↔ c10_result.errors = []) := by
  have h : validate_network_config c10_input = .ok c10_result := by decide
  exact ⟨h, validate_valid_iff_no_errors c10_input c10_result h⟩
